import Mathlib

/-!
Verification development for the slopinator-9000 pipeline.

Shallow embedding of the core modules:
  - src/oracles/idea-judge.ts      (IdeaJudge: judge, parseVerdict, failedVerdict, filterIdeas)
  - src/utils/time-budget.ts       (TimeBudget.run)
  - src/utils/state-manager.ts     (StateManager.save)
  - the orchestrator (Slopinator9000Orchestrator: run and its phases)

External collaborators (the Pi LLM agent, the file system, the network-backed
oracles) are modelled as explicit environment parameters delivering their
outcomes; the embedded code is the control logic of the repository itself.
Machine timestamps and durations are modelled as integers; the JSON texts
exchanged with the LLM are abstracted to the structured outcome of the
regex-extraction + JSON.parse step that the code performs on them.
-/

set_option maxRecDepth 4000

-- ════════════════════════════════════════════════════════════
-- Data model (src/types/oracles.ts, src/types/results.ts)
-- ════════════════════════════════════════════════════════════

/-- Feature of a generated idea (types/oracles.ts). `priority` is one of
"must" | "should" | "could"; union string types are modelled as String. -/
structure Feature where
  name : String
  description : String
  priority : String
  estimatedHours : Int
deriving DecidableEq

/-- GeneratedIdea (types/oracles.ts). -/
structure GeneratedIdea where
  name : String
  tagline : String
  description : String
  tweetPitch : String
  originalRepo : String
  strategy : String
  language : String
  runtime : String
  dependencies : List String
  coreFeatures : List Feature
  complexity : String
  estimatedHours : Int
  slopFactor : Int
  mvpDefinition : String
  successMetric : String
deriving DecidableEq

/-- TrendingRepo (types/oracles.ts); dates are modelled as Int timestamps. -/
structure TrendingRepo where
  url : String
  name : String
  owner : String
  description : String
  stars : Int
  language : String
  topics : List String
  createdAt : Int
  lastPush : Int
  ideaPotential : Int
  complexity : String
  ideaSurfaces : List String
  reasoning : String
deriving DecidableEq

/-- ResearchReport (types/oracles.ts): the orchestrator inspects only
`recommendation` ('SHIP' | 'PIVOT' | 'ABORT'); the remaining payload fields
(existence, dependencies, inspiration, risks, screenshots, ...) are opaque
to the core and omitted from the embedding. -/
structure ResearchReport where
  idea : GeneratedIdea
  timestamp : Int
  recommendation : String
  confidence : Int
  reasoning : String
deriving DecidableEq

/-- ImplementationResult (types/oracles.ts): the orchestrator inspects only
`status` ('complete' | 'partial' | 'failed'); remaining payload fields are
opaque to the core and omitted. -/
structure ImplementationResult where
  status : String
  repoPath : String
  testsPass : Bool
  totalHours : Int
deriving DecidableEq

/-- DeploymentResult (types/oracles.ts): the orchestrator inspects `success`,
`repoUrl` and `errors`; remaining fields omitted. -/
structure DeploymentResult where
  success : Bool
  repoUrl : String
  errors : List String
  warnings : List String
deriving DecidableEq

/-- TweetResult (types/oracles.ts). -/
structure TweetResult where
  success : Bool
  tweetUrl : Option String
  tweetId : Option String
  timestamp : Int
deriving DecidableEq

/-- One entry of OrchestratorState.errors (types/results.ts). -/
structure ErrorRecord where
  phase : String
  error : String
  timestamp : Int
deriving DecidableEq

/-- OrchestratorState (types/results.ts). Optional fields are Option. -/
structure OrchestratorState where
  runId : String
  startTime : Int
  trends : Option (List TrendingRepo)
  ideas : Option (List GeneratedIdea)
  selectedIdea : Option GeneratedIdea
  research : Option ResearchReport
  implementation : Option ImplementationResult
  deployment : Option DeploymentResult
  announcement : Option TweetResult
  currentPhase : String
  errors : List ErrorRecord
deriving DecidableEq

/-- RunResult (types/results.ts). -/
structure RunResult where
  success : Bool
  idea : Option GeneratedIdea
  repoUrl : Option String
  tweetUrl : Option String
  totalTime : Int
  state : OrchestratorState
  error : Option String
deriving DecidableEq

-- ════════════════════════════════════════════════════════════
-- Idea judge (src/oracles/idea-judge.ts)
-- ════════════════════════════════════════════════════════════

/-- Ordinal axis rating: 'none' | 'low' | 'medium' | 'high'. -/
inductive Level where
  | none
  | low
  | medium
  | high
deriving DecidableEq

/-- The five evaluation axes of a JudgeVerdict. -/
structure Axes where
  problemDivergence : Level
  technicalNovelty : Level
  audienceShift : Level
  addedValue : Level
  runnability : Level
deriving DecidableEq

/-- JudgeVerdict (idea-judge.ts). -/
structure JudgeVerdict where
  approved : Bool
  differentiationScore : Int
  axes : Axes
  reasoning : String
  suggestions : List String
deriving DecidableEq

/-- Ideas scoring below this are auto-rejected (idea-judge.ts). -/
def MIN_DIFFERENTIATION_SCORE : Int := 50

/-- At least this many axes must be "medium" or "high" (idea-judge.ts). -/
def MIN_STRONG_AXES : Nat := 2

/-- The raw JSON object shape that parseVerdict casts the extracted JSON to:
every field may be absent (or of the wrong dynamic type, which the code
treats the same way as absent via its typeof / Array.isArray checks). -/
structure RawAxes where
  problemDivergence : Option String
  technicalNovelty : Option String
  audienceShift : Option String
  addedValue : Option String
  runnability : Option String
deriving DecidableEq

/-- Parsed JSON verdict payload, before validation. -/
structure ParsedVerdict where
  differentiationScore : Option Int
  axes : Option RawAxes
  reasoning : Option String
  suggestions : Option (List String)
deriving DecidableEq

/-- Outcome of the regex match `/\x7b[\s\S]*\x7d/` followed by JSON.parse on
the collaborator output: no balanced JSON object found, a JSON.parse throw,
or a successfully parsed object. -/
inductive ExtractResult where
  | noJson
  | parseError
  | parsed (p : ParsedVerdict)
deriving DecidableEq

/-- Result of the PiAgent.execute collaborator call: success flag and raw
output text. A missing / undefined output is modelled as the empty string
(both are falsy in the `!result.output` check of judge). -/
structure PiResult where
  success : Bool
  output : String
deriving DecidableEq

/-- failedVerdict (idea-judge.ts): the fail-closed verdict. -/
def failedVerdict (reason : String) : JudgeVerdict :=
  { approved := false
    differentiationScore := 0
    axes :=
      { problemDivergence := Level.none
        technicalNovelty := Level.none
        audienceShift := Level.none
        addedValue := Level.none
        runnability := Level.none }
    reasoning := reason
    suggestions := [] }

/-- parseLevel (idea-judge.ts): accept the value only when it is one of the
four valid level strings, otherwise default to 'none'. -/
def parseLevel (v : Option String) : Level :=
  match v with
  | Option.some s =>
    if s = "none" then Level.none
    else if s = "low" then Level.low
    else if s = "medium" then Level.medium
    else if s = "high" then Level.high
    else Level.none
  | Option.none => Level.none

/-- Is an axis rated "medium" or "high"? -/
def Level.isStrong : Level → Bool
  | Level.medium => true
  | Level.high => true
  | _ => false

/-- strongAxes (idea-judge.ts): count of the five axes rated medium or high. -/
def strongAxes (a : Axes) : Nat :=
  ([a.problemDivergence, a.technicalNovelty, a.audienceShift,
    a.addedValue, a.runnability]).countP Level.isStrong

/-- Runnability bonus (idea-judge.ts): +10 for high, +5 for medium, else 0. -/
def runnabilityBonus (l : Level) : Int :=
  if l = Level.high then 10
  else if l = Level.medium then 5
  else 0

/-- The JS clamp: `typeof n === 'number' ? Math.max(0, Math.min(100, n)) : 0`. -/
def jsClampScore (v : Option Int) : Int :=
  match v with
  | Option.some n => max 0 (min 100 n)
  | Option.none => 0

/-- The JS `v || dflt` defaulting used for reasoning: the empty string is
falsy, so it also falls back to the default. -/
def jsOrElse (v : Option String) (dflt : String) : String :=
  match v with
  | Option.some s => if s = "" then dflt else s
  | Option.none => dflt

/-- parseVerdict (idea-judge.ts): validate the extracted JSON, compute the
runnability-adjusted score and the strong-axis count, and decide approval. -/
def parseVerdict (extract : ExtractResult) : JudgeVerdict :=
  match extract with
  | ExtractResult.noJson => failedVerdict "Could not parse LLM response"
  | ExtractResult.parseError => failedVerdict "JSON parse error"
  | ExtractResult.parsed p =>
    let score := jsClampScore p.differentiationScore
    let axes : Axes :=
      { problemDivergence := parseLevel (p.axes.bind RawAxes.problemDivergence)
        technicalNovelty := parseLevel (p.axes.bind RawAxes.technicalNovelty)
        audienceShift := parseLevel (p.axes.bind RawAxes.audienceShift)
        addedValue := parseLevel (p.axes.bind RawAxes.addedValue)
        runnability := parseLevel (p.axes.bind RawAxes.runnability) }
    let adjustedScore := min 100 (score + runnabilityBonus axes.runnability)
    let approved :=
      decide (adjustedScore ≥ MIN_DIFFERENTIATION_SCORE ∧ strongAxes axes ≥ MIN_STRONG_AXES)
    { approved := approved
      differentiationScore := score
      axes := axes
      reasoning := jsOrElse p.reasoning "No reasoning provided"
      suggestions := p.suggestions.getD [] }

/-- judge (idea-judge.ts): call the collaborator (its outcome is the PiResult
parameter), fall closed when the call failed or produced no output, otherwise
parse the output. The regex + JSON.parse step on the raw text is the abstract
function `extract`. -/
def judge (extract : String → ExtractResult) (result : PiResult) : JudgeVerdict :=
  if result.success = false ∨ result.output = "" then
    failedVerdict "LLM evaluation failed — erring on the side of rejection"
  else
    parseVerdict (extract result.output)

/-- Result of filterIdeas, with an extra trace of the ideas for which the
judge was actually invoked (the per-idea judge() calls of the loop). -/
structure FilterOutcome where
  approved : List GeneratedIdea
  rejected : List (GeneratedIdea × JudgeVerdict)
  judged : List GeneratedIdea
deriving DecidableEq

/-- filterIdeas (idea-judge.ts): sequentially judge each idea against its
source repo; an idea whose originalRepo key is absent from the lookup map is
auto-approved without a judge call. `judgeFn` is the verdict delivered by the
judge() collaborator call for a given idea/repo pair; `lookup` is the
`sourceRepos.get` map access. -/
def filterIdeas (judgeFn : GeneratedIdea → TrendingRepo → JudgeVerdict)
    (ideas : List GeneratedIdea) (lookup : String → Option TrendingRepo) :
    FilterOutcome :=
  match ideas with
  | [] => { approved := [], rejected := [], judged := [] }
  | idea :: rest =>
    match lookup idea.originalRepo with
    | Option.none =>
      let out := filterIdeas judgeFn rest lookup
      { out with approved := idea :: out.approved }
    | Option.some repo =>
      let verdict := judgeFn idea repo
      let out := filterIdeas judgeFn rest lookup
      if verdict.approved then
        { out with approved := idea :: out.approved, judged := idea :: out.judged }
      else
        { out with rejected := (idea, verdict) :: out.rejected, judged := idea :: out.judged }

-- ════════════════════════════════════════════════════════════
-- TimeBudget (src/utils/time-budget.ts)
-- ════════════════════════════════════════════════════════════

/-- The settled outcome of a promise: resolved with a value, or rejected
with an error (errors carried as their message string). -/
inductive FnOutcome (T : Type) where
  | resolved (v : T)
  | rejected (e : String)
deriving DecidableEq

/-- The timeout rejection message built by TimeBudget.run:
`TimeBudget exceeded for "label": elapsed s / budget s`. `elapsed` is the
toFixed(1)-formatted elapsed seconds, modelled as the already-formatted
string. -/
def timeoutMessage (label : String) (elapsed : String) (budgetSeconds : Nat) : String :=
  "TimeBudget exceeded for \"" ++ label ++ "\": " ++ elapsed ++ "s / "
    ++ toString budgetSeconds ++ "s"

/-- TimeBudget.run (time-budget.ts): race fn against a deadline of
budgetSeconds * 1000 ms. `fnSettleMs` is the instant (ms after start) at
which fn settles; if it settles strictly before the deadline its outcome is
propagated unchanged (the timer is cleared), otherwise the deadline timer
fires first and the call rejects with the timeout message. -/
def TimeBudget.run {T : Type} (label : String) (budgetSeconds : Nat)
    (fn : FnOutcome T) (fnSettleMs : Nat) (elapsed : String) : FnOutcome T :=
  if fnSettleMs < budgetSeconds * 1000 then fn
  else FnOutcome.rejected (timeoutMessage label elapsed budgetSeconds)

-- ════════════════════════════════════════════════════════════
-- StateManager (src/utils/state-manager.ts)
-- ════════════════════════════════════════════════════════════

/-- Outcome of one fs/promises operation (mkdir, writeFile). -/
inductive FsOutcome where
  | ok
  | ioError (msg : String)
deriving DecidableEq

/-- The file-system behaviour met by one save call: what mkdir and
writeFile would do. -/
structure SaveEnv where
  mkdirResult : FsOutcome
  writeResult : FsOutcome
deriving DecidableEq

/-- What StateManager.save resolved with: either the snapshot was written
(and a debug line logged), or an error was caught and logged via
logger.error. In both cases the promise resolves; there is no rejected
alternative in this type, mirroring the try/catch that swallows every
failure. -/
inductive SaveResult where
  | saved
  | failedLogged (msg : String)
deriving DecidableEq

/-- StateManager.save (state-manager.ts): mkdir then writeFile inside a
try/catch; the first failing operation short-circuits into the catch block,
which only logs. The serialized state content does not influence control
flow. -/
def StateManager.save (_state : OrchestratorState) (env : SaveEnv) : SaveResult :=
  match env.mkdirResult with
  | FsOutcome.ioError e => SaveResult.failedLogged e
  | FsOutcome.ok =>
    match env.writeResult with
    | FsOutcome.ioError e => SaveResult.failedLogged e
    | FsOutcome.ok => SaveResult.saved

-- ════════════════════════════════════════════════════════════
-- Orchestrator (Slopinator9000Orchestrator)
-- ════════════════════════════════════════════════════════════

/-- Observable events of a run: one per oracle invocation (each phase's
TimeBudget-wrapped collaborator call, the per-repo regeneration calls, the
per-idea research calls) plus the saveState checkpoints. -/
inductive Event where
  | scoutCall
  | generateCall
  | judgeRoundCall (ideas : List GeneratedIdea)
  | regenCall (repoKey : String)
  | researchCall (ideaName : String)
  | implementCall
  | deployCall
  | announceCall
  | saveCall
deriving DecidableEq

/-- Outcome of one phase: the updated state and the phase's own events, or a
thrown error message together with the state and events at the throw. -/
abbrev PhaseOut :=
  Except (String × OrchestratorState × List Event) (OrchestratorState × List Event)

/-- The config.system flags consumed by run(). -/
structure SystemConfig where
  dryRun : Bool
  skipGithub : Bool
  skipTwitter : Bool
deriving DecidableEq

/-- Behaviour of the external collaborators during a run. Each field is the
outcome of the corresponding TimeBudget-wrapped oracle call: Except.error
covers both a thrown oracle error and a TimeBudget timeout rejection.
`judgeFn` is the verdict produced by the per-idea judge() call (which itself
never throws); `regenerate` is the outcome of the regeneration Pi call for
one repo group after JSON extraction and field validation (Option.none for a
failed call, unparseable output, or missing required fields). -/
structure OracleEnv where
  scoutTrends : Except String (List TrendingRepo)
  generateOriginalIdeas : List TrendingRepo → Except String (List GeneratedIdea)
  judgeFn : GeneratedIdea → TrendingRepo → JudgeVerdict
  regenerate : String → List (GeneratedIdea × JudgeVerdict) → Option GeneratedIdea
  research : GeneratedIdea → Except String ResearchReport
  implement : GeneratedIdea → ResearchReport → Except String ImplementationResult
  deploy : ImplementationResult → GeneratedIdea → Except String DeploymentResult
  announce : DeploymentResult → GeneratedIdea → ImplementationResult →
    Except String TweetResult

/-- Defaults standing for the TypeScript non-null assertions (state.x!):
by the phase ordering these are never the values actually read. -/
def emptyIdea : GeneratedIdea :=
  { name := "", tagline := "", description := "", tweetPitch := ""
    originalRepo := "", strategy := "", language := "", runtime := ""
    dependencies := [], coreFeatures := [], complexity := ""
    estimatedHours := 0, slopFactor := 0, mvpDefinition := "", successMetric := "" }

def emptyReport : ResearchReport :=
  { idea := emptyIdea, timestamp := 0, recommendation := "", confidence := 0
    reasoning := "" }

def emptyImplementation : ImplementationResult :=
  { status := "", repoPath := "", testsPass := false, totalHours := 0 }

def emptyDeployment : DeploymentResult :=
  { success := false, repoUrl := "", errors := [], warnings := [] }

/-- The events of a phase outcome, on either branch. -/
def phaseEvents (out : PhaseOut) : List Event :=
  match out with
  | Except.ok (_, evs) => evs
  | Except.error (_, _, evs) => evs

/-- Phase 1, scout-trends: one scoutTrends call; zero trends is the
business-rule throw 'No suitable trends found'. -/
def phase1_ScoutTrends (env : OracleEnv) (st : OrchestratorState) : PhaseOut :=
  let st := { st with currentPhase := "scout-trends" }
  match env.scoutTrends with
  | Except.error e => Except.error (e, st, [Event.scoutCall])
  | Except.ok trends =>
    if trends.length = 0 then
      Except.error ("No suitable trends found", st, [Event.scoutCall])
    else
      Except.ok ({ st with trends := some trends }, [Event.scoutCall])

/-- Phase 2, generate-ideas: one generateOriginalIdeas call over the full
trend set; zero ideas is the throw 'No viable ideas generated'. -/
def phase2_GenerateIdeas (env : OracleEnv) (st : OrchestratorState) : PhaseOut :=
  let st := { st with currentPhase := "generate-ideas" }
  match env.generateOriginalIdeas (st.trends.getD []) with
  | Except.error e => Except.error (e, st, [Event.generateCall])
  | Except.ok allIdeas =>
    if allIdeas.length = 0 then
      Except.error ("No viable ideas generated", st, [Event.generateCall])
    else
      Except.ok ({ st with ideas := some allIdeas }, [Event.generateCall])

/-- The "owner/repo" key under which phase2b registers a trend. -/
def trendKey (t : TrendingRepo) : String := t.owner ++ "/" ++ t.name

/-- The Map built by phase2b: repoMap.set per trend in order, so for
duplicate keys the later trend wins; modelled as find-last. -/
def buildRepoMap (trends : List TrendingRepo) (key : String) : Option TrendingRepo :=
  trends.reverse.find? (fun t => trendKey t == key)

/-- Grouping of the rejected entries by idea.originalRepo, preserving the JS
Map insertion semantics: keys in first-seen order, entries appended. -/
def addToGroup (groups : List (String × List (GeneratedIdea × JudgeVerdict)))
    (key : String) (e : GeneratedIdea × JudgeVerdict) :
    List (String × List (GeneratedIdea × JudgeVerdict)) :=
  match groups with
  | [] => [(key, [e])]
  | (k, es) :: rest =>
    if k = key then (k, es ++ [e]) :: rest
    else (k, es) :: addToGroup rest key e

def groupByRepo (rejected : List (GeneratedIdea × JudgeVerdict)) :
    List (String × List (GeneratedIdea × JudgeVerdict)) :=
  rejected.foldl (fun gs e => addToGroup gs e.1.originalRepo e) []

/-- The per-group loop of regenerateFromFeedback: skip groups whose repo is
absent from the map (no Pi call), otherwise one regeneration call whose
validated result, if any, is pushed onto the improved list. -/
def regenLoop (env : OracleEnv) (repoMap : String → Option TrendingRepo) :
    List (String × List (GeneratedIdea × JudgeVerdict)) →
    List GeneratedIdea × List Event
  | [] => ([], [])
  | (key, entries) :: rest =>
    match repoMap key with
    | Option.none => regenLoop env repoMap rest
    | Option.some _ =>
      let tail := regenLoop env repoMap rest
      match env.regenerate key entries with
      | Option.some idea => (idea :: tail.1, Event.regenCall key :: tail.2)
      | Option.none => (tail.1, Event.regenCall key :: tail.2)

/-- regenerateFromFeedback (orchestrator): group rejections by source repo,
then regenerate one idea per group. -/
def regenerateFromFeedback (env : OracleEnv)
    (rejected : List (GeneratedIdea × JudgeVerdict))
    (repoMap : String → Option TrendingRepo) :
    List GeneratedIdea × List Event :=
  regenLoop env repoMap (groupByRepo rejected)

/-- Hard cap on judging rounds (initial judge + 1 retry). -/
def MAX_ROUNDS : Nat := 2

/-- The for-loop of phase2b, fuel = MAX_ROUNDS - round (so regeneration is
available exactly when round < MAX_ROUNDS - 1, i.e. remaining > 1). On a
round with zero approvals and an empty regeneration the loop continues with
the unchanged idea set, exactly as the TypeScript loop does. -/
def judgeLoop (env : OracleEnv) (repoMap : String → Option TrendingRepo) :
    Nat → OrchestratorState → List Event → PhaseOut
  | 0, st, evs =>
    Except.error
      ("All ideas rejected by the differentiation judge after "
        ++ toString MAX_ROUNDS ++ " rounds", st, evs)
  | remaining + 1, st, evs =>
    let ideas := st.ideas.getD []
    let evs := evs ++ [Event.judgeRoundCall ideas]
    let out := filterIdeas env.judgeFn ideas repoMap
    if out.approved.length > 0 then
      Except.ok ({ st with ideas := some out.approved }, evs)
    else if remaining > 0 then
      let regen := regenerateFromFeedback env out.rejected repoMap
      let evs := evs ++ regen.2
      if regen.1.length > 0 then
        judgeLoop env repoMap remaining { st with ideas := some regen.1 } evs
      else
        judgeLoop env repoMap remaining st evs
    else
      judgeLoop env repoMap remaining st evs

/-- Phase 2b, judge-ideas: build the repo lookup from the trends, then run
the bounded judge/regenerate loop. -/
def phase2b_JudgeIdeas (env : OracleEnv) (st : OrchestratorState) : PhaseOut :=
  let st := { st with currentPhase := "judge-ideas" }
  judgeLoop env (buildRepoMap (st.trends.getD [])) MAX_ROUNDS st []

/-- The per-idea loop of phase3: research ideas in order; a research error is
caught and the loop advances; the first SHIP recommendation stores the idea
and report and returns. Exhaustion throws. -/
def researchLoop (env : OracleEnv) (st : OrchestratorState) :
    List GeneratedIdea → List Event → PhaseOut
  | [], evs => Except.error ("No shippable ideas after research", st, evs)
  | idea :: rest, evs =>
    let evs := evs ++ [Event.researchCall idea.name]
    match env.research idea with
    | Except.error _ => researchLoop env st rest evs
    | Except.ok research =>
      if research.recommendation = "SHIP" then
        Except.ok
          ({ st with selectedIdea := some idea, research := some research }, evs)
      else
        researchLoop env st rest evs

/-- Phase 3, research. -/
def phase3_ResearchIdeas (env : OracleEnv) (st : OrchestratorState) : PhaseOut :=
  let st := { st with currentPhase := "research" }
  researchLoop env st (st.ideas.getD []) []

/-- Phase 4, implement: one implement call; an explicit 'failed' status is
the throw 'Implementation failed'; anything else (complete or partial) is
stored and the run continues. -/
def phase4_Implement (env : OracleEnv) (st : OrchestratorState) : PhaseOut :=
  let st := { st with currentPhase := "implement" }
  match env.implement (st.selectedIdea.getD emptyIdea) (st.research.getD emptyReport) with
  | Except.error e => Except.error (e, st, [Event.implementCall])
  | Except.ok implementation =>
    if implementation.status = "failed" then
      Except.error ("Implementation failed", st, [Event.implementCall])
    else
      Except.ok ({ st with implementation := some implementation }, [Event.implementCall])

/-- Phase 5, deploy: one deploy call; an unsuccessful DeploymentResult is the
throw 'Deployment failed: ...'. -/
def phase5_Deploy (env : OracleEnv) (st : OrchestratorState) : PhaseOut :=
  let st := { st with currentPhase := "deploy" }
  match env.deploy (st.implementation.getD emptyImplementation)
      (st.selectedIdea.getD emptyIdea) with
  | Except.error e => Except.error (e, st, [Event.deployCall])
  | Except.ok deployment =>
    if deployment.success = false then
      Except.error
        ("Deployment failed: " ++ String.intercalate ", " deployment.errors,
          st, [Event.deployCall])
    else
      Except.ok ({ st with deployment := some deployment }, [Event.deployCall])

/-- Phase 6, announce: one announce call; the TweetResult is stored whatever
its success flag says (an unsuccessful tweet is only logged, non-fatal). -/
def phase6_Announce (env : OracleEnv) (st : OrchestratorState) : PhaseOut :=
  let st := { st with currentPhase := "announce" }
  match env.announce (st.deployment.getD emptyDeployment)
      (st.selectedIdea.getD emptyIdea)
      (st.implementation.getD emptyImplementation) with
  | Except.error e => Except.error (e, st, [Event.announceCall])
  | Except.ok announcement =>
    Except.ok ({ st with announcement := some announcement }, [Event.announceCall])

/-- Sequencing of run(): each phase followed by a saveState checkpoint; the
first phase error short-circuits (no later phase executes). -/
def runPhases (phases : List (OrchestratorState → PhaseOut))
    (st : OrchestratorState) (tr : List Event) :
    Except (String × OrchestratorState × List Event) (OrchestratorState × List Event) :=
  match phases with
  | [] => Except.ok (st, tr)
  | p :: rest =>
    match p st with
    | Except.ok (st', evs) => runPhases rest st' (tr ++ evs ++ [Event.saveCall])
    | Except.error (e, st', evs) => Except.error (e, st', tr ++ evs)

/-- The phase sequence of run(): the five mandatory phases, then — unless
dry-run — deploy and announce, each gated by its own skip flag. -/
def pipelinePhases (env : OracleEnv) (cfg : SystemConfig) :
    List (OrchestratorState → PhaseOut) :=
  [phase1_ScoutTrends env, phase2_GenerateIdeas env, phase2b_JudgeIdeas env,
    phase3_ResearchIdeas env, phase4_Implement env]
  ++ (if cfg.dryRun then []
      else
        (if cfg.skipGithub then [] else [phase5_Deploy env])
        ++ (if cfg.skipTwitter then [] else [phase6_Announce env]))

/-- run() (orchestrator): execute the phases in sequence with checkpoints;
on success build the successful RunResult from the final state; the single
top-level catch records {phase, error, timestamp} into state.errors,
checkpoints once more, and returns the failed RunResult. `now` is the wall
clock at completion (also the error-record timestamp). -/
def Orchestrator.run (env : OracleEnv) (cfg : SystemConfig)
    (st0 : OrchestratorState) (now : Int) : RunResult × List Event :=
  match runPhases (pipelinePhases env cfg) st0 [] with
  | Except.ok (st, tr) =>
    ({ success := true
       idea := st.selectedIdea
       repoUrl := st.deployment.map DeploymentResult.repoUrl
       tweetUrl := st.announcement.bind TweetResult.tweetUrl
       totalTime := now - st.startTime
       state := st
       error := none }, tr)
  | Except.error (msg, st, tr) =>
    let st := { st with errors := st.errors ++ [⟨st.currentPhase, msg, now⟩] }
    ({ success := false
       idea := none
       repoUrl := none
       tweetUrl := none
       totalTime := now - st.startTime
       state := st
       error := some msg }, tr ++ [Event.saveCall])

-- ════════════════════════════════════════════════════════════
-- Derived predicates used in the statements
-- ════════════════════════════════════════════════════════════

/-- Is an event a judging round (one TimeBudget-wrapped filterIdeas call)? -/
def Event.isJudgeRound : Event → Bool
  | Event.judgeRoundCall _ => true
  | _ => false

/-- A trace containing neither a deploy nor an announce oracle invocation. -/
def noLateCalls (evs : List Event) : Prop :=
  ∀ e ∈ evs, e ≠ Event.deployCall ∧ e ≠ Event.announceCall

/-- A phase all of whose outcomes are free of deploy/announce invocations. -/
def phaseNoLate (p : OrchestratorState → PhaseOut) : Prop :=
  ∀ st, noLateCalls (phaseEvents (p st))

/-- Did a research outcome recommend shipping? A thrown research error (the
caught, non-fatal case) counts as not shipping. -/
def shipOutcome : Except String ResearchReport → Bool
  | Except.ok r => r.recommendation == "SHIP"
  | Except.error _ => false

/-- The research event for one candidate idea. -/
def researchEvent (idea : GeneratedIdea) : Event :=
  Event.researchCall idea.name

-- ════════════════════════════════════════════════════════════
-- Concrete data used by the witnesses
-- ════════════════════════════════════════════════════════════

def sampleRepo : TrendingRepo :=
  { url := "https://github.com/octo/sample", name := "sample", owner := "octo"
    description := "a trending sample repo", stars := 1200
    language := "TypeScript", topics := ["cli"], createdAt := 0, lastPush := 1
    ideaPotential := 80, complexity := "moderate", ideaSurfaces := ["tooling"]
    reasoning := "trendy" }

def sampleIdea : GeneratedIdea :=
  { name := "sample-extender", tagline := "extend sample"
    description := "a tool around sample", tweetPitch := "built sample-extender"
    originalRepo := "octo/sample", strategy := "transfer"
    language := "TypeScript", runtime := "Node.js"
    dependencies := ["commander"]
    coreFeatures := [{ name := "core", description := "the core"
                       priority := "must", estimatedHours := 2 }]
    complexity := "moderate", estimatedHours := 5, slopFactor := 70
    mvpDefinition := "a working CLI", successMetric := "one user" }

def regeneratedIdea : GeneratedIdea :=
  { sampleIdea with name := "fresh-take", tagline := "a genuinely new angle"
                    description := "solves a different problem" }

def orphanIdea : GeneratedIdea :=
  { sampleIdea with name := "orphan", originalRepo := "ghost/unknown" }

def approvedVerdict : JudgeVerdict :=
  { approved := true, differentiationScore := 80
    axes := { problemDivergence := Level.high, technicalNovelty := Level.medium
              audienceShift := Level.low, addedValue := Level.high
              runnability := Level.high }
    reasoning := "clearly different", suggestions := [] }

def rejectedVerdict : JudgeVerdict :=
  { approved := false, differentiationScore := 10
    axes := { problemDivergence := Level.none, technicalNovelty := Level.low
              audienceShift := Level.none, addedValue := Level.low
              runnability := Level.low }
    reasoning := "a thin wrapper", suggestions := ["solve a new problem"] }

def sampleReport : ResearchReport :=
  { idea := sampleIdea, timestamp := 3, recommendation := "SHIP"
    confidence := 80, reasoning := "novel enough" }

def pivotReport : ResearchReport :=
  { idea := sampleIdea, timestamp := 3, recommendation := "PIVOT"
    confidence := 40, reasoning := "crowded space" }

def sampleImplementation : ImplementationResult :=
  { status := "complete", repoPath := "/tmp/w/sample-extender"
    testsPass := true, totalHours := 5 }

def sampleDeployment : DeploymentResult :=
  { success := true, repoUrl := "https://github.com/octo/sample-extender"
    errors := [], warnings := [] }

def failedDeployment : DeploymentResult :=
  { success := false, repoUrl := "", errors := ["push rejected"], warnings := [] }

def sampleTweet : TweetResult :=
  { success := true, tweetUrl := some "https://twitter.com/x/status/1"
    tweetId := some "1", timestamp := 9 }

def failedTweet : TweetResult :=
  { success := false, tweetUrl := none, tweetId := none, timestamp := 9 }

def initialState : OrchestratorState :=
  { runId := "run-1", startTime := 0, trends := none, ideas := none
    selectedIdea := none, research := none, implementation := none
    deployment := none, announcement := none
    currentPhase := "initialization", errors := [] }

/-- A fully successful collaborator environment. -/
def sampleEnv : OracleEnv :=
  { scoutTrends := Except.ok [sampleRepo]
    generateOriginalIdeas := fun _ => Except.ok [sampleIdea]
    judgeFn := fun _ _ => approvedVerdict
    regenerate := fun _ _ => none
    research := fun _ => Except.ok sampleReport
    implement := fun _ _ => Except.ok sampleImplementation
    deploy := fun _ _ => Except.ok sampleDeployment
    announce := fun _ _ _ => Except.ok sampleTweet }

/-- Like sampleEnv, but the implement oracle throws. -/
def envImplFails : OracleEnv :=
  { sampleEnv with implement := fun _ _ => Except.error "boom" }

/-- Like sampleEnv, but the deploy oracle resolves unsuccessfully. -/
def envDeployFails : OracleEnv :=
  { sampleEnv with deploy := fun _ _ => Except.ok failedDeployment }

/-- Like sampleEnv, but the announce oracle resolves unsuccessfully. -/
def envTweetFails : OracleEnv :=
  { sampleEnv with announce := fun _ _ _ => Except.ok failedTweet }

/-- Judge rejects everything in round 1; regeneration yields one fresh idea,
which is also rejected in round 2 (for the exhaustion witness). -/
def envAllRejected : OracleEnv :=
  { sampleEnv with
      judgeFn := fun _ _ => rejectedVerdict
      regenerate := fun _ _ => some regeneratedIdea }

/-- Research yields PIVOT for the first idea and SHIP for the second. -/
def envPivotThenShip : OracleEnv :=
  { sampleEnv with
      generateOriginalIdeas := fun _ => Except.ok [sampleIdea, regeneratedIdea, orphanIdea]
      research := fun i => if i.name = "fresh-take" then Except.ok sampleReport
                           else Except.ok pivotReport }

def cfgRun : SystemConfig := { dryRun := false, skipGithub := false, skipTwitter := false }

def cfgDryRun : SystemConfig := { dryRun := true, skipGithub := false, skipTwitter := false }

/-- State after the first four phases succeed under sampleEnv-like behaviour. -/
def stateAfterResearch : OrchestratorState :=
  { initialState with
      currentPhase := "research"
      trends := some [sampleRepo]
      ideas := some [sampleIdea]
      selectedIdea := some sampleIdea
      research := some sampleReport }

def traceAfterResearch : List Event :=
  [Event.scoutCall, Event.saveCall, Event.generateCall, Event.saveCall,
   Event.judgeRoundCall [sampleIdea], Event.saveCall,
   Event.researchCall "sample-extender", Event.saveCall]

/-- State after the implement phase also succeeds. -/
def stateAfterImplement : OrchestratorState :=
  { stateAfterResearch with
      currentPhase := "implement"
      implementation := some sampleImplementation }

/-- State after the deploy phase also succeeds. -/
def stateAfterDeploy : OrchestratorState :=
  { stateAfterImplement with
      currentPhase := "deploy"
      deployment := some sampleDeployment }

def traceAfterDeploy : List Event :=
  traceAfterResearch
    ++ [Event.implementCall, Event.saveCall, Event.deployCall, Event.saveCall]

/-- A concrete well-formed parsed verdict payload. -/
def parsedSample : ParsedVerdict :=
  { differentiationScore := some 45
    axes := some
      { problemDivergence := some "high", technicalNovelty := some "medium"
        audienceShift := some "low", addedValue := some "medium"
        runnability := some "high" }
    reasoning := some "ok", suggestions := some [] }

/-- An extraction that always finds parsedSample. -/
def extractSample : String → ExtractResult :=
  fun _ => ExtractResult.parsed parsedSample

/-- A successful collaborator call with non-empty output. -/
def piOk : PiResult := { success := true, output := "x" }

/-- Research yields PIVOT for every idea. -/
def envAllPivot : OracleEnv :=
  { sampleEnv with research := fun _ => Except.ok pivotReport }

/-- A state holding three candidate ideas, ready for the research phase. -/
def stResearch : OrchestratorState :=
  { initialState with
      trends := some [sampleRepo]
      ideas := some [sampleIdea, regeneratedIdea, orphanIdea]
      currentPhase := "judge-ideas" }

/-- A state ready for the judge-ideas phase: one trend, one idea. -/
def stJudge : OrchestratorState :=
  { initialState with
      trends := some [sampleRepo]
      ideas := some [sampleIdea]
      currentPhase := "generate-ideas" }

def traceAfterImplement : List Event :=
  traceAfterResearch ++ [Event.implementCall, Event.saveCall]

-- ════════════════════════════════════════════════════════════
-- Helper lemmas: filterIdeas
-- ════════════════════════════════════════════════════════════

/-- Every rejected entry was judged against a repo found in the lookup. -/
theorem filterIdeas_rejected_lookup
    (j : GeneratedIdea → TrendingRepo → JudgeVerdict)
    (lookup : String → Option TrendingRepo) :
    ∀ ideas, ∀ e ∈ (filterIdeas j ideas lookup).rejected,
      lookup e.1.originalRepo ≠ Option.none := by
  intro ideas
  induction ideas with
  | nil => simp [filterIdeas]
  | cons idea rest ih =>
    intro e he
    cases hl : lookup idea.originalRepo with
    | none =>
      simp only [filterIdeas, hl] at he
      exact ih e he
    | some repo =>
      cases hv : (j idea repo).approved with
      | true =>
        simp only [filterIdeas, hl, hv, if_true] at he
        exact ih e he
      | false =>
        simp only [filterIdeas, hl, hv, Bool.false_eq_true, if_false] at he
        rcases List.mem_cons.mp he with h1 | h2
        · subst h1
          simp [hl]
        · exact ih e h2

/-- Every idea the judge was invoked for had a repo found in the lookup. -/
theorem filterIdeas_judged_lookup
    (j : GeneratedIdea → TrendingRepo → JudgeVerdict)
    (lookup : String → Option TrendingRepo) :
    ∀ ideas, ∀ i ∈ (filterIdeas j ideas lookup).judged,
      lookup i.originalRepo ≠ Option.none := by
  intro ideas
  induction ideas with
  | nil => simp [filterIdeas]
  | cons idea rest ih =>
    intro i hi
    cases hl : lookup idea.originalRepo with
    | none =>
      simp only [filterIdeas, hl] at hi
      exact ih i hi
    | some repo =>
      cases hv : (j idea repo).approved with
      | true =>
        simp only [filterIdeas, hl, hv, if_true] at hi
        rcases List.mem_cons.mp hi with h1 | h2
        · subst h1
          simp [hl]
        · exact ih i h2
      | false =>
        simp only [filterIdeas, hl, hv, Bool.false_eq_true, if_false] at hi
        rcases List.mem_cons.mp hi with h1 | h2
        · subst h1
          simp [hl]
        · exact ih i h2

/-- An idea with no repo in the lookup always lands in approved. -/
theorem filterIdeas_approved_of_not_found
    (j : GeneratedIdea → TrendingRepo → JudgeVerdict)
    (lookup : String → Option TrendingRepo) :
    ∀ ideas, ∀ idea ∈ ideas, lookup idea.originalRepo = Option.none →
      idea ∈ (filterIdeas j ideas lookup).approved := by
  intro ideas
  induction ideas with
  | nil => simp
  | cons hd rest ih =>
    intro idea hmem hnone
    rcases List.mem_cons.mp hmem with h1 | h2
    · subst h1
      simp only [filterIdeas, hnone]
      exact List.mem_cons_self _ _
    · cases hl : lookup hd.originalRepo with
      | none =>
        simp only [filterIdeas, hl]
        exact List.mem_cons_of_mem _ (ih idea h2 hnone)
      | some repo =>
        cases hv : (j hd repo).approved with
        | true =>
          simp only [filterIdeas, hl, hv, if_true]
          exact List.mem_cons_of_mem _ (ih idea h2 hnone)
        | false =>
          simp only [filterIdeas, hl, hv, Bool.false_eq_true, if_false]
          exact ih idea h2 hnone

/-- approved and the rejected ideas together are a permutation of the input. -/
theorem filterIdeas_perm
    (j : GeneratedIdea → TrendingRepo → JudgeVerdict)
    (lookup : String → Option TrendingRepo) :
    ∀ ideas, ((filterIdeas j ideas lookup).approved
      ++ (filterIdeas j ideas lookup).rejected.map Prod.fst).Perm ideas := by
  intro ideas
  induction ideas with
  | nil => simp [filterIdeas]
  | cons idea rest ih =>
    cases hl : lookup idea.originalRepo with
    | none =>
      simp only [filterIdeas, hl]
      simpa using ih.cons idea
    | some repo =>
      cases hv : (j idea repo).approved with
      | true =>
        simp only [filterIdeas, hl, hv, if_true]
        simpa using ih.cons idea
      | false =>
        simp only [filterIdeas, hl, hv, Bool.false_eq_true, if_false, List.map_cons]
        exact List.perm_middle.trans (ih.cons idea)

-- ════════════════════════════════════════════════════════════
-- Helper lemmas: orchestrator plumbing
-- ════════════════════════════════════════════════════════════

/-- Sequencing decomposes over list append; an error in the first segment
short-circuits the second. -/
theorem runPhases_append (xs ys : List (OrchestratorState → PhaseOut)) :
    ∀ st tr, runPhases (xs ++ ys) st tr =
      match runPhases xs st tr with
      | Except.ok (st', tr') => runPhases ys st' tr'
      | Except.error e => Except.error e := by
  induction xs with
  | nil => intro st tr; rfl
  | cons p rest ih =>
    intro st tr
    simp only [List.cons_append, runPhases]
    cases p st with
    | ok pair => exact ih pair.1 (tr ++ pair.2 ++ [Event.saveCall])
    | error e => rfl

theorem noLateCalls_append {a b : List Event}
    (ha : noLateCalls a) (hb : noLateCalls b) : noLateCalls (a ++ b) := by
  intro e he
  rcases List.mem_append.mp he with h | h
  · exact ha e h
  · exact hb e h

theorem noLateCalls_nil : noLateCalls [] := by
  intro e he
  cases he

theorem noLateCalls_single {e : Event} (h1 : e ≠ Event.deployCall)
    (h2 : e ≠ Event.announceCall) : noLateCalls [e] := by
  intro x hx
  rcases List.mem_singleton.mp hx with rfl
  exact ⟨h1, h2⟩

theorem noLateCalls_save : noLateCalls [Event.saveCall] :=
  noLateCalls_single (by simp) (by simp)

/-- Phase 1 always emits exactly its one scout invocation. -/
theorem phase1_events (env : OracleEnv) (st : OrchestratorState) :
    phaseEvents (phase1_ScoutTrends env st) = [Event.scoutCall] := by
  cases h : env.scoutTrends with
  | error e => simp [phase1_ScoutTrends, phaseEvents, h]
  | ok trends =>
    by_cases hn : trends = []
    · simp [phase1_ScoutTrends, phaseEvents, h, hn]
    · simp [phase1_ScoutTrends, phaseEvents, h, hn]

/-- Phase 2 always emits exactly its one generator invocation. -/
theorem phase2_events (env : OracleEnv) (st : OrchestratorState) :
    phaseEvents (phase2_GenerateIdeas env st) = [Event.generateCall] := by
  cases h : env.generateOriginalIdeas (st.trends.getD []) with
  | error e => simp [phase2_GenerateIdeas, phaseEvents, h]
  | ok allIdeas =>
    by_cases hn : allIdeas = []
    · simp [phase2_GenerateIdeas, phaseEvents, h, hn]
    · simp [phase2_GenerateIdeas, phaseEvents, h, hn]

/-- Phase 4 always emits exactly its one implementer invocation. -/
theorem phase4_events (env : OracleEnv) (st : OrchestratorState) :
    phaseEvents (phase4_Implement env st) = [Event.implementCall] := by
  cases h : env.implement (st.selectedIdea.getD emptyIdea) (st.research.getD emptyReport) with
  | error e => simp [phase4_Implement, phaseEvents, h]
  | ok implementation =>
    by_cases hn : implementation.status = "failed"
    · simp [phase4_Implement, phaseEvents, h, hn]
    · simp [phase4_Implement, phaseEvents, h, hn]

/-- Every event of the regeneration loop is a regenCall. -/
theorem regenLoop_events (env : OracleEnv) (rm : String → Option TrendingRepo) :
    ∀ gs, ∀ e ∈ (regenLoop env rm gs).2, ∃ k, e = Event.regenCall k := by
  intro gs
  induction gs with
  | nil => simp [regenLoop]
  | cons g rest ih =>
    intro e he
    obtain ⟨key, entries⟩ := g
    cases hrm : rm key with
    | none =>
      simp only [regenLoop, hrm] at he
      exact ih e he
    | some repo =>
      cases hr : env.regenerate key entries with
      | none =>
        simp only [regenLoop, hrm, hr] at he
        rcases List.mem_cons.mp he with h1 | h2
        · exact ⟨key, h1⟩
        · exact ih e h2
      | some idea =>
        simp only [regenLoop, hrm, hr] at he
        rcases List.mem_cons.mp he with h1 | h2
        · exact ⟨key, h1⟩
        · exact ih e h2

theorem regenLoop_noLate (env : OracleEnv) (rm : String → Option TrendingRepo)
    (gs : List (String × List (GeneratedIdea × JudgeVerdict))) :
    noLateCalls (regenLoop env rm gs).2 := by
  intro e he
  obtain ⟨k, rfl⟩ := regenLoop_events env rm gs e he
  exact ⟨by simp, by simp⟩

theorem regenLoop_no_judgeRound (env : OracleEnv)
    (rm : String → Option TrendingRepo)
    (gs : List (String × List (GeneratedIdea × JudgeVerdict))) :
    ((regenLoop env rm gs).2).countP Event.isJudgeRound = 0 := by
  rw [List.countP_eq_zero]
  intro e he
  obtain ⟨k, rfl⟩ := regenLoop_events env rm gs e he
  simp [Event.isJudgeRound]

/-- The judging loop emits at most `fuel` additional judging rounds. -/
theorem judgeLoop_round_count (env : OracleEnv) (rm : String → Option TrendingRepo) :
    ∀ n st evs, (phaseEvents (judgeLoop env rm n st evs)).countP Event.isJudgeRound
      ≤ evs.countP Event.isJudgeRound + n := by
  intro n
  induction n with
  | zero =>
    intro st evs
    simp [judgeLoop, phaseEvents]
  | succ n ih =>
    intro st evs
    simp only [judgeLoop]
    by_cases h1 : (filterIdeas env.judgeFn (st.ideas.getD []) rm).approved.length > 0
    · simp only [h1, if_true, phaseEvents, List.countP_append]
      have : List.countP Event.isJudgeRound [Event.judgeRoundCall (st.ideas.getD [])] = 1 := by
        simp [Event.isJudgeRound]
      omega
    · simp only [h1, if_false]
      by_cases h2 : n > 0
      · simp only [h2, if_true]
        by_cases h3 : (regenerateFromFeedback env
            (filterIdeas env.judgeFn (st.ideas.getD []) rm).rejected rm).1.length > 0
        · simp only [h3, if_true]
          refine le_trans (ih _ _) ?_
          simp only [List.countP_append, regenerateFromFeedback, regenLoop_no_judgeRound]
          have : List.countP Event.isJudgeRound [Event.judgeRoundCall (st.ideas.getD [])] = 1 := by
            simp [Event.isJudgeRound]
          omega
        · simp only [h3, if_false]
          refine le_trans (ih _ _) ?_
          simp only [List.countP_append, regenerateFromFeedback, regenLoop_no_judgeRound]
          have : List.countP Event.isJudgeRound [Event.judgeRoundCall (st.ideas.getD [])] = 1 := by
            simp [Event.isJudgeRound]
          omega
      · simp only [h2, if_false]
        refine le_trans (ih _ _) ?_
        simp only [List.countP_append]
        have : List.countP Event.isJudgeRound [Event.judgeRoundCall (st.ideas.getD [])] = 1 := by
          simp [Event.isJudgeRound]
        omega

/-- The judging loop never emits deploy or announce invocations. -/
theorem judgeLoop_noLate (env : OracleEnv) (rm : String → Option TrendingRepo) :
    ∀ n st evs, noLateCalls evs →
      noLateCalls (phaseEvents (judgeLoop env rm n st evs)) := by
  intro n
  induction n with
  | zero =>
    intro st evs hevs
    simpa [judgeLoop, phaseEvents] using hevs
  | succ n ih =>
    intro st evs hevs
    have hjr : noLateCalls [Event.judgeRoundCall (st.ideas.getD [])] := by
      intro e he
      rcases List.mem_singleton.mp he with rfl
      exact ⟨by simp, by simp⟩
    simp only [judgeLoop]
    by_cases h1 : (filterIdeas env.judgeFn (st.ideas.getD []) rm).approved.length > 0
    · simp only [h1, if_true, phaseEvents]
      exact noLateCalls_append hevs hjr
    · simp only [h1, if_false]
      by_cases h2 : n > 0
      · simp only [h2, if_true]
        by_cases h3 : (regenerateFromFeedback env
            (filterIdeas env.judgeFn (st.ideas.getD []) rm).rejected rm).1.length > 0
        · simp only [h3, if_true]
          exact ih _ _ (noLateCalls_append (noLateCalls_append hevs hjr)
            (regenLoop_noLate env rm _))
        · simp only [h3, if_false]
          exact ih _ _ (noLateCalls_append (noLateCalls_append hevs hjr)
            (regenLoop_noLate env rm _))
      · simp only [h2, if_false]
        exact ih _ _ (noLateCalls_append hevs hjr)

/-- The judging loop never changes currentPhase on its error exit. -/
theorem judgeLoop_error_phase (env : OracleEnv) (rm : String → Option TrendingRepo) :
    ∀ n st evs e st' evs', judgeLoop env rm n st evs = Except.error (e, st', evs') →
      st'.currentPhase = st.currentPhase := by
  intro n
  induction n with
  | zero =>
    intro st evs e st' evs' h
    simp only [judgeLoop] at h
    cases h
    rfl
  | succ n ih =>
    intro st evs e st' evs' h
    simp only [judgeLoop] at h
    by_cases h1 : (filterIdeas env.judgeFn (st.ideas.getD []) rm).approved.length > 0
    · simp only [h1, if_true] at h
      cases h
    · simp only [h1, if_false] at h
      by_cases h2 : n > 0
      · simp only [h2, if_true] at h
        by_cases h3 : (regenerateFromFeedback env
            (filterIdeas env.judgeFn (st.ideas.getD []) rm).rejected rm).1.length > 0
        · simp only [h3, if_true] at h
          simpa using ih _ _ _ _ _ h
        · simp only [h3, if_false] at h
          exact ih _ _ _ _ _ h
      · simp only [h2, if_false] at h
        exact ih _ _ _ _ _ h

/-- The research loop emits only researchCall events over its inputs. -/
theorem researchLoop_noLate (env : OracleEnv) (st : OrchestratorState) :
    ∀ ideas evs, noLateCalls evs →
      noLateCalls (phaseEvents (researchLoop env st ideas evs)) := by
  intro ideas
  induction ideas with
  | nil =>
    intro evs hevs
    simpa [researchLoop, phaseEvents] using hevs
  | cons idea rest ih =>
    intro evs hevs
    have hrc : noLateCalls [Event.researchCall idea.name] := by
      intro e he
      rcases List.mem_singleton.mp he with rfl
      exact ⟨by simp, by simp⟩
    simp only [researchLoop]
    cases hr : env.research idea with
    | error e => exact ih _ (noLateCalls_append hevs hrc)
    | ok research =>
      by_cases hs : research.recommendation = "SHIP"
      · simp only [hs, if_true, phaseEvents]
        exact noLateCalls_append hevs hrc
      · simp only [hs, if_false]
        exact ih _ (noLateCalls_append hevs hrc)

/-- The research loop returns the captured state unchanged on its error exit. -/
theorem researchLoop_error_state (env : OracleEnv) (st : OrchestratorState) :
    ∀ ideas evs e st' evs',
      researchLoop env st ideas evs = Except.error (e, st', evs') → st' = st := by
  intro ideas
  induction ideas with
  | nil =>
    intro evs e st' evs' h
    simp only [researchLoop] at h
    cases h
    rfl
  | cons idea rest ih =>
    intro evs e st' evs' h
    simp only [researchLoop] at h
    cases hr : env.research idea with
    | error e2 =>
      rw [hr] at h
      exact ih _ _ _ _ h
    | ok research =>
      rw [hr] at h
      by_cases hs : research.recommendation = "SHIP"
      · simp only [hs, if_true] at h
        cases h
      · simp only [hs, if_false] at h
        exact ih _ _ _ _ h

/-- phase2b never emits deploy or announce invocations. -/
theorem phase2b_noLate (env : OracleEnv) (st : OrchestratorState) :
    noLateCalls (phaseEvents (phase2b_JudgeIdeas env st)) := by
  unfold phase2b_JudgeIdeas
  exact judgeLoop_noLate env _ MAX_ROUNDS _ [] noLateCalls_nil

/-- phase3 never emits deploy or announce invocations. -/
theorem phase3_noLate (env : OracleEnv) (st : OrchestratorState) :
    noLateCalls (phaseEvents (phase3_ResearchIdeas env st)) := by
  unfold phase3_ResearchIdeas
  exact researchLoop_noLate env _ _ [] noLateCalls_nil

/-- If no phase in the list can emit deploy/announce events, neither does the
sequenced trace. -/
theorem runPhases_noLate (phases : List (OrchestratorState → PhaseOut)) :
    ∀ st tr, (∀ p ∈ phases, phaseNoLate p) → noLateCalls tr →
      noLateCalls (phaseEvents (runPhases phases st tr)) := by
  induction phases with
  | nil =>
    intro st tr _ htr
    simpa [runPhases, phaseEvents] using htr
  | cons p rest ih =>
    intro st tr hp htr
    have hphead : phaseNoLate p := hp p (List.mem_cons_self _ _)
    have hptail : ∀ q ∈ rest, phaseNoLate q :=
      fun q hq => hp q (List.mem_cons_of_mem _ hq)
    simp only [runPhases]
    cases hps : p st with
    | ok pair =>
      have hevs : noLateCalls pair.2 := by
        have := hphead st
        rw [hps] at this
        exact this
      exact ih _ _ hptail
        (noLateCalls_append (noLateCalls_append htr hevs) noLateCalls_save)
    | error e =>
      have hevs : noLateCalls e.2.2 := by
        have := hphead st
        rw [hps] at this
        exact this
      simp only [phaseEvents]
      exact noLateCalls_append htr hevs

/-- A non-shipping prefix of candidates is skipped over, producing one
research event per candidate. -/
theorem researchLoop_skip (env : OracleEnv) (st : OrchestratorState) :
    ∀ pre rest evs, (∀ i ∈ pre, shipOutcome (env.research i) = false) →
      researchLoop env st (pre ++ rest) evs
        = researchLoop env st rest (evs ++ pre.map researchEvent) := by
  intro pre
  induction pre with
  | nil =>
    intro rest evs _
    simp
  | cons i pre ih =>
    intro rest evs hall
    have hi := hall i (List.mem_cons_self _ _)
    have htail : ∀ x ∈ pre, shipOutcome (env.research x) = false :=
      fun x hx => hall x (List.mem_cons_of_mem _ hx)
    cases hr : env.research i with
    | error e =>
      simp only [List.cons_append, researchLoop, hr, List.append_eq]
      rw [ih rest (evs ++ [Event.researchCall i.name]) htail]
      simp [researchEvent]
    | ok r =>
      have hne : ¬ r.recommendation = "SHIP" := by
        rw [hr] at hi
        simpa [shipOutcome] using hi
      simp only [List.cons_append, researchLoop, hr, List.append_eq, if_neg hne]
      rw [ih rest (evs ++ [Event.researchCall i.name]) htail]
      simp [researchEvent]

/-- When no candidate ships, the loop throws after researching all of them. -/
theorem researchLoop_exhaust (env : OracleEnv) (st : OrchestratorState)
    (ideas : List GeneratedIdea) (evs : List Event)
    (hall : ∀ i ∈ ideas, shipOutcome (env.research i) = false) :
    researchLoop env st ideas evs
      = Except.error ("No shippable ideas after research", st,
          evs ++ ideas.map researchEvent) := by
  have h := researchLoop_skip env st ideas [] evs hall
  rw [List.append_nil] at h
  rw [h]
  simp [researchLoop]

-- ════════════════════════════════════════════════════════════
-- Claim C3
-- ════════════════════════════════════════════════════════════

/-- Claim C3: research proceeds in list order; the first candidate whose
research recommends SHIP is stored as the selected idea with its report and
short-circuits the loop (later candidates are never researched — the trace
covers exactly the prefix); research failures and non-SHIP recommendations
are non-fatal and the loop advances; if no candidate ships the phase
throws. -/
theorem research_first_ship_selected (env : OracleEnv) (st : OrchestratorState) :
    (∀ pre idea suf r,
      st.ideas = some (pre ++ idea :: suf) →
      (∀ i ∈ pre, shipOutcome (env.research i) = false) →
      env.research idea = Except.ok r →
      r.recommendation = "SHIP" →
      phase3_ResearchIdeas env st =
        Except.ok
          ({ st with
              currentPhase := "research"
              selectedIdea := some idea
              research := some r },
            pre.map researchEvent ++ [researchEvent idea]))
    ∧ (∀ ideas, st.ideas = some ideas →
        (∀ i ∈ ideas, shipOutcome (env.research i) = false) →
        phase3_ResearchIdeas env st =
          Except.error ("No shippable ideas after research",
            { st with currentPhase := "research" }, ideas.map researchEvent)) := by
  constructor
  · intro pre idea suf r hideas hpre hok hship
    unfold phase3_ResearchIdeas
    simp only [hideas, Option.getD_some]
    rw [researchLoop_skip env _ pre (idea :: suf) [] hpre]
    simp only [List.nil_append, researchLoop, hok, if_pos hship]
    rfl
  · intro ideas hideas hall
    unfold phase3_ResearchIdeas
    simp only [hideas, Option.getD_some]
    rw [researchLoop_exhaust env _ ideas [] hall]
    simp

/-- Witness for C3: with [sampleIdea, regeneratedIdea, orphanIdea] where only
the second ships, the second is selected after two research calls; and with
an all-PIVOT researcher the phase throws. -/
theorem research_first_ship_selected_witness :
    phase3_ResearchIdeas envPivotThenShip stResearch =
      Except.ok
        ({ stResearch with
            currentPhase := "research"
            selectedIdea := some regeneratedIdea
            research := some sampleReport },
          [sampleIdea].map researchEvent ++ [researchEvent regeneratedIdea])
    ∧ phase3_ResearchIdeas envAllPivot stResearch =
      Except.error ("No shippable ideas after research",
        { stResearch with currentPhase := "research" },
        [sampleIdea, regeneratedIdea, orphanIdea].map researchEvent) := by
  constructor
  · exact (research_first_ship_selected envPivotThenShip stResearch).1
      [sampleIdea] regeneratedIdea [orphanIdea] sampleReport rfl (by decide)
      rfl rfl
  · exact (research_first_ship_selected envAllPivot stResearch).2
      [sampleIdea, regeneratedIdea, orphanIdea] rfl (by decide)

-- ════════════════════════════════════════════════════════════
-- Claim C7
-- ════════════════════════════════════════════════════════════

/-- The run trace is the phase trace, possibly followed by the final
failure checkpoint. -/
theorem run_trace (env : OracleEnv) (cfg : SystemConfig)
    (st0 : OrchestratorState) (now : Int) :
    (Orchestrator.run env cfg st0 now).2
        = phaseEvents (runPhases (pipelinePhases env cfg) st0 [])
    ∨ (Orchestrator.run env cfg st0 now).2
        = phaseEvents (runPhases (pipelinePhases env cfg) st0 [])
          ++ [Event.saveCall] := by
  unfold Orchestrator.run
  cases h : runPhases (pipelinePhases env cfg) st0 [] with
  | ok pair =>
    obtain ⟨st, tr⟩ := pair
    left
    rfl
  | error e =>
    obtain ⟨msg, st, tr⟩ := e
    right
    rfl

theorem noLate_not_mem {l : List Event} (h : noLateCalls l) :
    Event.deployCall ∉ l ∧ Event.announceCall ∉ l :=
  ⟨fun hm => (h _ hm).1 rfl, fun hm => (h _ hm).2 rfl⟩

/-- Claim C7: with the dry-run flag enabled the deploy and announce oracles
are never invoked during the run, whatever the skip flags say. -/
theorem dryRun_skips_deploy_announce (env : OracleEnv) (cfg : SystemConfig)
    (st0 : OrchestratorState) (now : Int) (h : cfg.dryRun = true) :
    Event.deployCall ∉ (Orchestrator.run env cfg st0 now).2
    ∧ Event.announceCall ∉ (Orchestrator.run env cfg st0 now).2 := by
  have hphases : pipelinePhases env cfg
      = [phase1_ScoutTrends env, phase2_GenerateIdeas env, phase2b_JudgeIdeas env,
          phase3_ResearchIdeas env, phase4_Implement env] := by
    simp [pipelinePhases, h]
  have hnl : noLateCalls (phaseEvents (runPhases (pipelinePhases env cfg) st0 [])) := by
    apply runPhases_noLate
    · intro p hp
      rw [hphases] at hp
      fin_cases hp
      · intro s
        rw [phase1_events]
        exact noLateCalls_single (by simp) (by simp)
      · intro s
        rw [phase2_events]
        exact noLateCalls_single (by simp) (by simp)
      · intro s
        exact phase2b_noLate env s
      · intro s
        exact phase3_noLate env s
      · intro s
        rw [phase4_events]
        exact noLateCalls_single (by simp) (by simp)
    · exact noLateCalls_nil
  rcases run_trace env cfg st0 now with ht | ht
  · rw [ht]
    exact noLate_not_mem hnl
  · rw [ht]
    exact noLate_not_mem (noLateCalls_append hnl noLateCalls_save)

/-- Witness for C7: a dry run over the all-success environment. -/
theorem dryRun_skips_deploy_announce_witness :
    Event.deployCall ∉ (Orchestrator.run sampleEnv cfgDryRun initialState 5).2
    ∧ Event.announceCall ∉ (Orchestrator.run sampleEnv cfgDryRun initialState 5).2 :=
  dryRun_skips_deploy_announce sampleEnv cfgDryRun initialState 5 rfl

-- ════════════════════════════════════════════════════════════
-- Claim C1
-- ════════════════════════════════════════════════════════════

/-- Claim C1: judge returns a verdict approved exactly when the
runnability-adjusted score min(100, score + bonus) reaches 50 and at least
two of the five axes are rated medium or high; the stored score is the
collaborator's differentiation score clamped to 0..100. -/
theorem judge_approved_iff_thresholds (extract : String → ExtractResult)
    (result : PiResult) :
    ((judge extract result).approved = true ↔
      min 100 ((judge extract result).differentiationScore
          + runnabilityBonus (judge extract result).axes.runnability)
          ≥ MIN_DIFFERENTIATION_SCORE
        ∧ strongAxes (judge extract result).axes ≥ MIN_STRONG_AXES)
    ∧ (∀ p, result.success = true → result.output ≠ "" →
        extract result.output = ExtractResult.parsed p →
        (judge extract result).differentiationScore
          = jsClampScore p.differentiationScore) := by
  unfold judge
  by_cases h : result.success = false ∨ result.output = ""
  · rw [if_pos h]
    refine ⟨?_, ?_⟩
    · simp only [failedVerdict, strongAxes, runnabilityBonus, Level.isStrong,
        MIN_DIFFERENTIATION_SCORE, MIN_STRONG_AXES]
      decide
    · intro p hs ho _
      rcases h with h | h
      · rw [hs] at h
        exact absurd h (by decide)
      · exact absurd h ho
  · rw [if_neg h]
    cases hx : extract result.output with
    | noJson =>
      refine ⟨?_, ?_⟩
      · simp only [parseVerdict, failedVerdict, strongAxes, runnabilityBonus,
          Level.isStrong, MIN_DIFFERENTIATION_SCORE, MIN_STRONG_AXES]
        decide
      · intro p _ _ hp
        exact absurd hp (by simp)
    | parseError =>
      refine ⟨?_, ?_⟩
      · simp only [parseVerdict, failedVerdict, strongAxes, runnabilityBonus,
          Level.isStrong, MIN_DIFFERENTIATION_SCORE, MIN_STRONG_AXES]
        decide
      · intro p _ _ hp
        exact absurd hp (by simp)
    | parsed p =>
      refine ⟨?_, ?_⟩
      · simp only [parseVerdict, decide_eq_true_eq]
      · intro q _ _ hq
        cases hq
        simp [parseVerdict]

/-- Witness for C1: a concrete parsed verdict. -/
theorem judge_approved_iff_thresholds_witness :
    ((judge extractSample piOk).approved = true ↔
      min 100 ((judge extractSample piOk).differentiationScore
          + runnabilityBonus (judge extractSample piOk).axes.runnability)
          ≥ MIN_DIFFERENTIATION_SCORE
        ∧ strongAxes (judge extractSample piOk).axes ≥ MIN_STRONG_AXES)
    ∧ (judge extractSample piOk).differentiationScore
        = jsClampScore parsedSample.differentiationScore := by
  refine ⟨(judge_approved_iff_thresholds extractSample piOk).1,
    (judge_approved_iff_thresholds extractSample piOk).2 parsedSample rfl
      (by decide) rfl⟩

-- ════════════════════════════════════════════════════════════
-- Claim C6
-- ════════════════════════════════════════════════════════════

/-- Claim C6: judge never throws — a failed or empty collaborator call and
every unparseable output resolve to the fail-closed verdict: approved
false, score 0, all five axes none, reasoning the failure cause, no
suggestions. -/
theorem judge_fail_closed (extract : String → ExtractResult) (result : PiResult) :
    (result.success = false ∨ result.output = "" →
      judge extract result
        = failedVerdict "LLM evaluation failed — erring on the side of rejection")
    ∧ (¬(result.success = false ∨ result.output = "") →
      extract result.output = ExtractResult.noJson →
      judge extract result = failedVerdict "Could not parse LLM response")
    ∧ (¬(result.success = false ∨ result.output = "") →
      extract result.output = ExtractResult.parseError →
      judge extract result = failedVerdict "JSON parse error")
    ∧ (∀ reason,
      (failedVerdict reason).approved = false
      ∧ (failedVerdict reason).differentiationScore = 0
      ∧ (failedVerdict reason).axes.problemDivergence = Level.none
      ∧ (failedVerdict reason).axes.technicalNovelty = Level.none
      ∧ (failedVerdict reason).axes.audienceShift = Level.none
      ∧ (failedVerdict reason).axes.addedValue = Level.none
      ∧ (failedVerdict reason).axes.runnability = Level.none
      ∧ (failedVerdict reason).reasoning = reason
      ∧ (failedVerdict reason).suggestions = []) := by
  refine ⟨?_, ?_, ?_, ?_⟩
  · intro h
    simp [judge, h]
  · intro h hx
    simp [judge, h, parseVerdict, hx]
  · intro h hx
    simp [judge, h, parseVerdict, hx]
  · intro reason
    simp [failedVerdict]

/-- Witness for C6: a failed collaborator call and an unparseable output. -/
theorem judge_fail_closed_witness :
    judge (fun _ => ExtractResult.noJson) { success := false, output := "zzz" }
      = failedVerdict "LLM evaluation failed — erring on the side of rejection"
    ∧ judge (fun _ => ExtractResult.noJson) { success := true, output := "zzz" }
      = failedVerdict "Could not parse LLM response"
    ∧ judge (fun _ => ExtractResult.parseError) { success := true, output := "zzz" }
      = failedVerdict "JSON parse error"
    ∧ (failedVerdict "JSON parse error").approved = false := by
  refine ⟨(judge_fail_closed _ _).1 (Or.inl rfl),
    (judge_fail_closed _ _).2.1 (by simp) rfl,
    (judge_fail_closed _ _).2.2.1 (by simp) rfl,
    ((judge_fail_closed (fun _ => ExtractResult.parseError)
      { success := true, output := "zzz" }).2.2.2 "JSON parse error").1⟩

-- ════════════════════════════════════════════════════════════
-- Claim C8
-- ════════════════════════════════════════════════════════════

/-- Claim C8: filterIdeas partitions the input — approved plus the rejected
ideas are a permutation of the input list — and an idea whose source repo is
absent from the lookup is auto-approved: it lands in approved, never in
rejected, and no judge call is made for it. -/
theorem filterIdeas_partition_fail_open
    (j : GeneratedIdea → TrendingRepo → JudgeVerdict)
    (ideas : List GeneratedIdea) (lookup : String → Option TrendingRepo) :
    ((filterIdeas j ideas lookup).approved
      ++ (filterIdeas j ideas lookup).rejected.map Prod.fst).Perm ideas
    ∧ (∀ idea ∈ ideas, lookup idea.originalRepo = Option.none →
        idea ∈ (filterIdeas j ideas lookup).approved
        ∧ idea ∉ ((filterIdeas j ideas lookup).rejected.map Prod.fst)
        ∧ idea ∉ (filterIdeas j ideas lookup).judged) := by
  refine ⟨filterIdeas_perm j lookup ideas, ?_⟩
  intro idea hmem hnone
  refine ⟨filterIdeas_approved_of_not_found j lookup ideas idea hmem hnone, ?_, ?_⟩
  · intro hc
    rcases List.mem_map.mp hc with ⟨e, he, hfst⟩
    apply filterIdeas_rejected_lookup j lookup ideas e he
    rw [hfst]
    exact hnone
  · intro hc
    exact filterIdeas_judged_lookup j lookup ideas idea hc hnone

/-- Witness for C8: one idea with a known repo, one with an unknown repo. -/
theorem filterIdeas_partition_fail_open_witness :
    ((filterIdeas (fun _ _ => rejectedVerdict) [sampleIdea, orphanIdea]
        (buildRepoMap [sampleRepo])).approved
      ++ (filterIdeas (fun _ _ => rejectedVerdict) [sampleIdea, orphanIdea]
        (buildRepoMap [sampleRepo])).rejected.map Prod.fst).Perm
      [sampleIdea, orphanIdea]
    ∧ orphanIdea ∈ (filterIdeas (fun _ _ => rejectedVerdict)
        [sampleIdea, orphanIdea] (buildRepoMap [sampleRepo])).approved
    ∧ orphanIdea ∉ ((filterIdeas (fun _ _ => rejectedVerdict)
        [sampleIdea, orphanIdea] (buildRepoMap [sampleRepo])).rejected.map Prod.fst)
    ∧ orphanIdea ∉ (filterIdeas (fun _ _ => rejectedVerdict)
        [sampleIdea, orphanIdea] (buildRepoMap [sampleRepo])).judged := by
  have h := filterIdeas_partition_fail_open (fun _ _ => rejectedVerdict)
    [sampleIdea, orphanIdea] (buildRepoMap [sampleRepo])
  have h2 := h.2 orphanIdea (by decide) (by decide)
  exact ⟨h.1, h2.1, h2.2.1, h2.2.2⟩

-- ════════════════════════════════════════════════════════════
-- Claim C5
-- ════════════════════════════════════════════════════════════

/-- Claim C5: TimeBudget.run propagates fn's outcome unchanged whenever fn
settles before the deadline, and rejects with the timeout error — carrying
the label, the elapsed time and the configured budget — when the deadline
fires first. -/
theorem timeBudget_run_contract {T : Type} (label : String) (budgetSeconds : Nat)
    (fn : FnOutcome T) (fnSettleMs : Nat) (elapsed : String) :
    (fnSettleMs < budgetSeconds * 1000 →
      TimeBudget.run label budgetSeconds fn fnSettleMs elapsed = fn)
    ∧ (¬ fnSettleMs < budgetSeconds * 1000 →
      TimeBudget.run label budgetSeconds fn fnSettleMs elapsed
        = FnOutcome.rejected
            ("TimeBudget exceeded for \"" ++ label ++ "\": " ++ elapsed
              ++ "s / " ++ toString budgetSeconds ++ "s")) := by
  constructor
  · intro h
    simp [TimeBudget.run, h]
  · intro h
    simp [TimeBudget.run, timeoutMessage, h]

/-- Witness for C5: a rejection settling in time is propagated unchanged; a
late resolution is replaced by the timeout rejection. -/
theorem timeBudget_run_contract_witness :
    TimeBudget.run "scout-trends" 2
        (FnOutcome.rejected "oracle blew up" : FnOutcome Nat)
        500 "0.5" = FnOutcome.rejected "oracle blew up"
    ∧ TimeBudget.run "scout-trends" 2 (FnOutcome.resolved (42 : Nat)) 2500 "2.5"
        = FnOutcome.rejected
            ("TimeBudget exceeded for \"" ++ "scout-trends" ++ "\": " ++ "2.5"
              ++ "s / " ++ toString 2 ++ "s") := by
  exact ⟨(timeBudget_run_contract "scout-trends" 2 _ 500 "0.5").1 (by decide),
    (timeBudget_run_contract "scout-trends" 2 _ 2500 "2.5").2 (by decide)⟩

-- ════════════════════════════════════════════════════════════
-- Claim C10
-- ════════════════════════════════════════════════════════════

/-- Claim C10: StateManager.save never rejects — every mkdir or write
failure is caught and only logged, so save always resolves, and a
checkpoint may be silently lost. -/
theorem stateManager_save_never_rejects (st : OrchestratorState) (env : SaveEnv) :
    (StateManager.save st env = SaveResult.saved
      ∨ ∃ msg, StateManager.save st env = SaveResult.failedLogged msg)
    ∧ (∀ e, env.mkdirResult = FsOutcome.ioError e →
        StateManager.save st env = SaveResult.failedLogged e)
    ∧ (∀ e, env.mkdirResult = FsOutcome.ok → env.writeResult = FsOutcome.ioError e →
        StateManager.save st env = SaveResult.failedLogged e)
    ∧ (env.mkdirResult = FsOutcome.ok → env.writeResult = FsOutcome.ok →
        StateManager.save st env = SaveResult.saved) := by
  refine ⟨?_, ?_, ?_, ?_⟩
  · cases hm : env.mkdirResult with
    | ioError e => exact Or.inr ⟨e, by simp [StateManager.save, hm]⟩
    | ok =>
      cases hw : env.writeResult with
      | ioError e => exact Or.inr ⟨e, by simp [StateManager.save, hm, hw]⟩
      | ok => exact Or.inl (by simp [StateManager.save, hm, hw])
  · intro e hm
    simp [StateManager.save, hm]
  · intro e hm hw
    simp [StateManager.save, hm, hw]
  · intro hm hw
    simp [StateManager.save, hm, hw]

/-- Witness for C10: a write failure is caught and logged, not rethrown. -/
theorem stateManager_save_never_rejects_witness :
    StateManager.save initialState
      { mkdirResult := FsOutcome.ok, writeResult := FsOutcome.ioError "ENOSPC" }
      = SaveResult.failedLogged "ENOSPC"
    ∧ StateManager.save initialState
      { mkdirResult := FsOutcome.ok, writeResult := FsOutcome.ok }
      = SaveResult.saved := by
  exact ⟨(stateManager_save_never_rejects initialState _).2.2.1 "ENOSPC" rfl rfl,
    (stateManager_save_never_rejects initialState _).2.2.2 rfl rfl⟩

-- ════════════════════════════════════════════════════════════
-- Claim C4
-- ════════════════════════════════════════════════════════════

/-- Claim C4: when a phase throws (oracle error, business-rule throw, or a
TimeBudget timeout — all delivered as the phase's Except.error), the run
executes no later phase (the trace stops at the failing phase), returns
success = false with the thrown message, records {phase, error, timestamp}
into state.errors, checkpoints once more (the final saveCall), and the
state's currentPhase is the tag of the failing phase: every phase stamps its
own tag on any error state it returns. -/
theorem run_aborts_on_phase_failure (env : OracleEnv) (cfg : SystemConfig)
    (st0 : OrchestratorState) (now : Int) :
    (∀ xs p ys stx trx msg stp evs,
      pipelinePhases env cfg = xs ++ p :: ys →
      runPhases xs st0 [] = Except.ok (stx, trx) →
      p stx = Except.error (msg, stp, evs) →
      Orchestrator.run env cfg st0 now =
        ({ success := false
           idea := none
           repoUrl := none
           tweetUrl := none
           totalTime := now - stp.startTime
           state := { stp with errors := stp.errors ++ [⟨stp.currentPhase, msg, now⟩] }
           error := some msg }, trx ++ evs ++ [Event.saveCall]))
    ∧ (∀ st e st' evs, phase1_ScoutTrends env st = Except.error (e, st', evs) →
        st'.currentPhase = "scout-trends")
    ∧ (∀ st e st' evs, phase2_GenerateIdeas env st = Except.error (e, st', evs) →
        st'.currentPhase = "generate-ideas")
    ∧ (∀ st e st' evs, phase2b_JudgeIdeas env st = Except.error (e, st', evs) →
        st'.currentPhase = "judge-ideas")
    ∧ (∀ st e st' evs, phase3_ResearchIdeas env st = Except.error (e, st', evs) →
        st'.currentPhase = "research")
    ∧ (∀ st e st' evs, phase4_Implement env st = Except.error (e, st', evs) →
        st'.currentPhase = "implement")
    ∧ (∀ st e st' evs, phase5_Deploy env st = Except.error (e, st', evs) →
        st'.currentPhase = "deploy")
    ∧ (∀ st e st' evs, phase6_Announce env st = Except.error (e, st', evs) →
        st'.currentPhase = "announce") := by
  refine ⟨?_, ?_, ?_, ?_, ?_, ?_, ?_, ?_⟩
  · intro xs p ys stx trx msg stp evs h1 h2 h3
    unfold Orchestrator.run
    rw [h1, runPhases_append xs (p :: ys) st0 [], h2]
    simp only [runPhases, h3]
  · intro st e st' evs h
    cases hs : env.scoutTrends with
    | error e2 =>
      simp [phase1_ScoutTrends, hs] at h
      rw [← h.2.1]
    | ok trends =>
      by_cases hn : trends = []
      · simp [phase1_ScoutTrends, hs, hn] at h
        rw [← h.2.1]
      · simp [phase1_ScoutTrends, hs, hn] at h
  · intro st e st' evs h
    cases hs : env.generateOriginalIdeas (st.trends.getD []) with
    | error e2 =>
      simp [phase2_GenerateIdeas, hs] at h
      rw [← h.2.1]
    | ok allIdeas =>
      by_cases hn : allIdeas = []
      · simp [phase2_GenerateIdeas, hs, hn] at h
        rw [← h.2.1]
      · simp [phase2_GenerateIdeas, hs, hn] at h
  · intro st e st' evs h
    unfold phase2b_JudgeIdeas at h
    have := judgeLoop_error_phase env _ MAX_ROUNDS _ [] e st' evs h
    simpa using this
  · intro st e st' evs h
    unfold phase3_ResearchIdeas at h
    have := researchLoop_error_state env _ _ _ e st' evs h
    rw [this]
  · intro st e st' evs h
    cases hs : env.implement (st.selectedIdea.getD emptyIdea)
        (st.research.getD emptyReport) with
    | error e2 =>
      simp [phase4_Implement, hs] at h
      rw [← h.2.1]
    | ok implementation =>
      by_cases hf : implementation.status = "failed"
      · simp [phase4_Implement, hs, hf] at h
        rw [← h.2.1]
      · simp [phase4_Implement, hs, hf] at h
  · intro st e st' evs h
    cases hs : env.deploy (st.implementation.getD emptyImplementation)
        (st.selectedIdea.getD emptyIdea) with
    | error e2 =>
      simp [phase5_Deploy, hs] at h
      rw [← h.2.1]
    | ok deployment =>
      by_cases hf : deployment.success = false
      · simp [phase5_Deploy, hs, hf] at h
        rw [← h.2.1]
      · simp [phase5_Deploy, hs, hf] at h
  · intro st e st' evs h
    cases hs : env.announce (st.deployment.getD emptyDeployment)
        (st.selectedIdea.getD emptyIdea)
        (st.implementation.getD emptyImplementation) with
    | error e2 =>
      simp [phase6_Announce, hs] at h
      rw [← h.2.1]
    | ok announcement =>
      simp [phase6_Announce, hs] at h

/-- Witness for C4: the implement oracle throws "boom"; the run fails at
phase implement with the record appended and one final checkpoint. -/
theorem run_aborts_on_phase_failure_witness :
    Orchestrator.run envImplFails cfgRun initialState 7 =
      ({ success := false
         idea := none
         repoUrl := none
         tweetUrl := none
         totalTime := 7 - stateAfterResearch.startTime
         state := { stateAfterResearch with
                      currentPhase := "implement"
                      errors := stateAfterResearch.errors
                        ++ [⟨"implement", "boom", 7⟩] }
         error := some "boom" },
        traceAfterResearch ++ [Event.implementCall] ++ [Event.saveCall]) := by
  have h := (run_aborts_on_phase_failure envImplFails cfgRun initialState 7).1
    [phase1_ScoutTrends envImplFails, phase2_GenerateIdeas envImplFails,
      phase2b_JudgeIdeas envImplFails, phase3_ResearchIdeas envImplFails]
    (phase4_Implement envImplFails)
    [phase5_Deploy envImplFails, phase6_Announce envImplFails]
    stateAfterResearch traceAfterResearch "boom"
    { stateAfterResearch with currentPhase := "implement" } [Event.implementCall]
    rfl rfl rfl
  exact h

-- ════════════════════════════════════════════════════════════
-- Claim C9
-- ════════════════════════════════════════════════════════════

/-- Claim C9: an announce oracle resolving with success = false does not
fail the run — the TweetResult is still stored into state.announcement and
the run returns success = true — whereas a deploy result with success =
false aborts the run with the 'Deployment failed' error. -/
theorem announce_failure_nonfatal_deploy_failure_fatal (env : OracleEnv)
    (cfg : SystemConfig) (st0 : OrchestratorState) (now : Int) :
    (∀ xs stx trx tw,
      pipelinePhases env cfg = xs ++ [phase6_Announce env] →
      runPhases xs st0 [] = Except.ok (stx, trx) →
      env.announce (stx.deployment.getD emptyDeployment)
          (stx.selectedIdea.getD emptyIdea)
          (stx.implementation.getD emptyImplementation) = Except.ok tw →
      tw.success = false →
      (Orchestrator.run env cfg st0 now).1.success = true
      ∧ (Orchestrator.run env cfg st0 now).1.state.announcement = some tw)
    ∧ (∀ xs ys stx trx dep,
      pipelinePhases env cfg = xs ++ phase5_Deploy env :: ys →
      runPhases xs st0 [] = Except.ok (stx, trx) →
      env.deploy (stx.implementation.getD emptyImplementation)
          (stx.selectedIdea.getD emptyIdea) = Except.ok dep →
      dep.success = false →
      (Orchestrator.run env cfg st0 now).1.success = false
      ∧ (Orchestrator.run env cfg st0 now).1.error
          = some ("Deployment failed: " ++ String.intercalate ", " dep.errors)) := by
  constructor
  · intro xs stx trx tw h1 h2 h3 h4
    unfold Orchestrator.run
    rw [h1, runPhases_append xs [phase6_Announce env] st0 [], h2]
    simp [runPhases, phase6_Announce, h3]
  · intro xs ys stx trx dep h1 h2 h3 h4
    unfold Orchestrator.run
    rw [h1, runPhases_append xs (phase5_Deploy env :: ys) st0 [], h2]
    simp [runPhases, phase5_Deploy, h3, h4]

/-- Witness for C9: a failed tweet leaves the run successful with the result
stored; a failed deployment aborts the run with the deploy error. -/
theorem announce_failure_nonfatal_deploy_failure_fatal_witness :
    ((Orchestrator.run envTweetFails cfgRun initialState 9).1.success = true
      ∧ (Orchestrator.run envTweetFails cfgRun initialState 9).1.state.announcement
          = some failedTweet)
    ∧ ((Orchestrator.run envDeployFails cfgRun initialState 9).1.success = false
      ∧ (Orchestrator.run envDeployFails cfgRun initialState 9).1.error
          = some ("Deployment failed: "
              ++ String.intercalate ", " failedDeployment.errors)) := by
  constructor
  · exact (announce_failure_nonfatal_deploy_failure_fatal envTweetFails cfgRun
      initialState 9).1
      [phase1_ScoutTrends envTweetFails, phase2_GenerateIdeas envTweetFails,
        phase2b_JudgeIdeas envTweetFails, phase3_ResearchIdeas envTweetFails,
        phase4_Implement envTweetFails, phase5_Deploy envTweetFails]
      stateAfterDeploy traceAfterDeploy failedTweet rfl rfl rfl rfl
  · exact (announce_failure_nonfatal_deploy_failure_fatal envDeployFails cfgRun
      initialState 9).2
      [phase1_ScoutTrends envDeployFails, phase2_GenerateIdeas envDeployFails,
        phase2b_JudgeIdeas envDeployFails, phase3_ResearchIdeas envDeployFails,
        phase4_Implement envDeployFails]
      [phase6_Announce envDeployFails]
      stateAfterImplement traceAfterImplement failedDeployment rfl rfl rfl rfl

-- ════════════════════════════════════════════════════════════
-- Claim C2
-- ════════════════════════════════════════════════════════════

/-- One judging round with zero approvals and a non-empty regeneration:
the working idea set is replaced and the loop continues. -/
theorem judgeLoop_succ_rejected_regen (env : OracleEnv)
    (rm : String → Option TrendingRepo) (n : Nat) (stc : OrchestratorState)
    (evs : List Event) (ideasC improvedC : List GeneratedIdea) (revsC : List Event)
    (hi : stc.ideas = some ideasC)
    (ha : (filterIdeas env.judgeFn ideasC rm).approved = [])
    (hr : regenerateFromFeedback env (filterIdeas env.judgeFn ideasC rm).rejected rm
      = (improvedC, revsC))
    (hpos : improvedC ≠ []) (hn : 0 < n) :
    judgeLoop env rm (n + 1) stc evs
      = judgeLoop env rm n { stc with ideas := some improvedC }
          (evs ++ [Event.judgeRoundCall ideasC] ++ revsC) := by
  simp [judgeLoop, hi, ha, hr, hn, List.length_pos.mpr hpos]

/-- The last round with zero approvals: the loop exits with the exhaustion
error and the unchanged state. -/
theorem judgeLoop_succ_rejected_last (env : OracleEnv)
    (rm : String → Option TrendingRepo) (stc : OrchestratorState)
    (evs : List Event) (ideasC : List GeneratedIdea)
    (hi : stc.ideas = some ideasC)
    (ha : (filterIdeas env.judgeFn ideasC rm).approved = []) :
    judgeLoop env rm (0 + 1) stc evs
      = Except.error
          ("All ideas rejected by the differentiation judge after "
            ++ toString MAX_ROUNDS ++ " rounds", stc,
            evs ++ [Event.judgeRoundCall ideasC]) := by
  simp [judgeLoop, hi, ha]

/-- A judging round with at least one approval: the survivors replace the
idea set and the phase returns. -/
theorem judgeLoop_succ_approved (env : OracleEnv)
    (rm : String → Option TrendingRepo) (n : Nat) (stc : OrchestratorState)
    (evs : List Event) (ideasC approvedC : List GeneratedIdea)
    (hi : stc.ideas = some ideasC)
    (ha : (filterIdeas env.judgeFn ideasC rm).approved = approvedC)
    (hpos : approvedC ≠ []) :
    judgeLoop env rm (n + 1) stc evs
      = Except.ok ({ stc with ideas := some approvedC },
          evs ++ [Event.judgeRoundCall ideasC]) := by
  simp [judgeLoop, hi, ha, List.length_pos.mpr hpos]

/-- Claim C2: if round 1 approves none of the N current ideas and the
feedback regeneration yields M > 0 fresh ideas, round 2 judges exactly those
M ideas (the judging-round trace is [round ideas0, regen calls, round
improved]); the phase performs at most MAX_ROUNDS = 2 judging rounds; if
round 2 also approves nothing the phase throws the exhaustion error, and
otherwise the survivors of round 2 become the idea set. -/
theorem judgeIdeas_regeneration_rounds (env : OracleEnv) (st : OrchestratorState)
    (ideas0 improved : List GeneratedIdea) (revs : List Event)
    (hideas : st.ideas = some ideas0)
    (h1 : (filterIdeas env.judgeFn ideas0 (buildRepoMap (st.trends.getD []))).approved
      = [])
    (hregen : regenerateFromFeedback env
        (filterIdeas env.judgeFn ideas0 (buildRepoMap (st.trends.getD []))).rejected
        (buildRepoMap (st.trends.getD [])) = (improved, revs))
    (hM : improved ≠ []) :
    phaseEvents (phase2b_JudgeIdeas env st)
      = [Event.judgeRoundCall ideas0] ++ revs ++ [Event.judgeRoundCall improved]
    ∧ ((filterIdeas env.judgeFn improved (buildRepoMap (st.trends.getD []))).approved
          = [] →
        phase2b_JudgeIdeas env st
          = Except.error
              ("All ideas rejected by the differentiation judge after "
                ++ toString MAX_ROUNDS ++ " rounds",
                { st with currentPhase := "judge-ideas", ideas := some improved },
                [Event.judgeRoundCall ideas0] ++ revs
                  ++ [Event.judgeRoundCall improved]))
    ∧ (∀ approved2,
        (filterIdeas env.judgeFn improved (buildRepoMap (st.trends.getD []))).approved
            = approved2 →
        approved2 ≠ [] →
        phase2b_JudgeIdeas env st
          = Except.ok
              ({ st with currentPhase := "judge-ideas", ideas := some approved2 },
                [Event.judgeRoundCall ideas0] ++ revs
                  ++ [Event.judgeRoundCall improved]))
    ∧ (phaseEvents (phase2b_JudgeIdeas env st)).countP Event.isJudgeRound
        ≤ MAX_ROUNDS := by
  have hst : phase2b_JudgeIdeas env st
      = judgeLoop env (buildRepoMap (st.trends.getD [])) (1 + 1)
          { st with currentPhase := "judge-ideas" } [] := rfl
  have step1 := judgeLoop_succ_rejected_regen env
    (buildRepoMap (st.trends.getD [])) 1
    { st with currentPhase := "judge-ideas" } [] ideas0 improved revs
    hideas h1 hregen hM Nat.one_pos
  refine ⟨?_, ?_, ?_, ?_⟩
  · by_cases hA2 : (filterIdeas env.judgeFn improved
        (buildRepoMap (st.trends.getD []))).approved = []
    · have step2 := judgeLoop_succ_rejected_last env
        (buildRepoMap (st.trends.getD []))
        { st with currentPhase := "judge-ideas", ideas := some improved }
        ([] ++ [Event.judgeRoundCall ideas0] ++ revs) improved rfl hA2
      rw [hst.trans (step1.trans step2)]
      rfl
    · have step2 := judgeLoop_succ_approved env
        (buildRepoMap (st.trends.getD [])) 0
        { st with currentPhase := "judge-ideas", ideas := some improved }
        ([] ++ [Event.judgeRoundCall ideas0] ++ revs) improved _ rfl rfl hA2
      rw [hst.trans (step1.trans step2)]
      rfl
  · intro hA2
    have step2 := judgeLoop_succ_rejected_last env
      (buildRepoMap (st.trends.getD []))
      { st with currentPhase := "judge-ideas", ideas := some improved }
      ([] ++ [Event.judgeRoundCall ideas0] ++ revs) improved rfl hA2
    exact hst.trans (step1.trans step2)
  · intro approved2 hA2eq hA2ne
    have step2 := judgeLoop_succ_approved env
      (buildRepoMap (st.trends.getD [])) 0
      { st with currentPhase := "judge-ideas", ideas := some improved }
      ([] ++ [Event.judgeRoundCall ideas0] ++ revs) improved approved2 rfl hA2eq
      hA2ne
    exact hst.trans (step1.trans step2)
  · rw [hst]
    have h := judgeLoop_round_count env (buildRepoMap (st.trends.getD [])) (1 + 1)
      { st with currentPhase := "judge-ideas" } []
    simpa [MAX_ROUNDS] using h

/-- Witness for C2: one idea rejected in round 1, one regenerated idea
judged (and rejected again) in round 2, exhausting the phase. -/
theorem judgeIdeas_regeneration_rounds_witness :
    phaseEvents (phase2b_JudgeIdeas envAllRejected stJudge)
      = [Event.judgeRoundCall [sampleIdea]] ++ [Event.regenCall "octo/sample"]
        ++ [Event.judgeRoundCall [regeneratedIdea]]
    ∧ phase2b_JudgeIdeas envAllRejected stJudge
      = Except.error
          ("All ideas rejected by the differentiation judge after "
            ++ toString MAX_ROUNDS ++ " rounds",
            { stJudge with currentPhase := "judge-ideas", ideas := some [regeneratedIdea] },
            [Event.judgeRoundCall [sampleIdea]] ++ [Event.regenCall "octo/sample"]
              ++ [Event.judgeRoundCall [regeneratedIdea]]) := by
  have h := judgeIdeas_regeneration_rounds envAllRejected stJudge
    [sampleIdea] [regeneratedIdea] [Event.regenCall "octo/sample"]
    rfl rfl rfl (by decide)
  exact ⟨h.1, h.2.1 rfl⟩
